import Mathlib

/-!
Verification of the department-store e-commerce backend (src/main.py, src/schemas.py).

Money values are modelled as rationals; Python's round(x, 2) (round half to even)
is modelled by round2. Timestamps are opaque naturals supplied by the caller.
The storage backend (database.py: db, create_document, get_documents) is not part
of src/, so its operations are modelled from the spec: insert appends a document
with a fresh identifier, findOneByFilter returns the first match, updateOneById
rewrites the first document with the given identifier, deleteOneByFilter removes
the first match.
-/

namespace DeptStore

/-- Round half to even to an integer, as Python round does on exact values. -/
def rhe (x : ℚ) : ℤ :=
  let f : ℤ := Rat.floor x
  let frac : ℚ := x - (f : ℚ)
  if frac < 1 / 2 then f
  else if 1 / 2 < frac then f + 1
  else if f % 2 = 0 then f else f + 1

/-- Python round(x, 2): round to two decimal places, ties to even. -/
def round2 (x : ℚ) : ℚ := ((rhe (x * 100) : ℚ)) / 100

/-- schemas.CartItem: product_id, title, price, quantity, optional image. -/
structure CartItem where
  product_id : String
  title : String
  price : ℚ
  quantity : ℤ
  image : Option String
deriving DecidableEq, Repr

/-- A cart document as stored in the cart collection: the Cart schema fields
plus the storage identifier and the server-set timestamp. -/
structure CartDoc where
  id : Nat
  session_id : String
  items : List CartItem
  subtotal : ℚ
  updated_at : Nat
deriving DecidableEq, Repr

/-- schemas.Customer (email is kept abstract as a string; schema-level email
validation happens before the handler runs and is out of scope). -/
structure Customer where
  name : String
  email : String
  phone : Option String
  address_line1 : String
  address_line2 : Option String
  city : String
  state : String
  postal_code : String
  country : String
deriving DecidableEq, Repr

/-- schemas.OrderItem: structurally the CartItem fields. -/
structure OrderItem where
  product_id : String
  title : String
  price : ℚ
  quantity : ℤ
  image : Option String
deriving DecidableEq, Repr

/-- An order document as stored in the order collection. -/
structure OrderDoc where
  id : Nat
  session_id : String
  customer : Customer
  items : List OrderItem
  subtotal : ℚ
  tax : ℚ
  total : ℚ
  status : String
  placed_at : Nat
deriving DecidableEq, Repr

/-- schemas.Product plus the storage identifier. -/
structure ProductDoc where
  id : Nat
  title : String
  description : Option String
  price : ℚ
  compare_at_price : Option ℚ
  category_slug : String
  brand : Option String
  sku : Option String
  images : List String
  rating : ℚ
  stock : Nat
deriving DecidableEq, Repr

/-- Modelled from the spec: the document store's state, one list per collection
used by the handlers under verification, plus the next fresh identifier
(insert(collection, document) returns a fresh id). -/
structure DB where
  products : List ProductDoc
  carts : List CartDoc
  orders : List OrderDoc
  nextId : Nat
deriving DecidableEq, Repr

/-- An HTTPException: status code and detail message. -/
structure HTTPError where
  status : Nat
  detail : String
deriving DecidableEq, Repr

/-- Python str.lower, over the string's characters (ASCII case mapping). -/
def strLower (s : String) : String := String.mk (s.toList.map Char.toLower)

/-- The needle list is a prefix of the hay list. -/
def isPrefixChars : List Char → List Char → Bool
  | [], _ => true
  | _ :: _, [] => false
  | a :: as, b :: bs => a == b && isPrefixChars as bs

/-- The needle occurs as a contiguous sublist of the hay list. -/
def containsChars (needle : List Char) : List Char → Bool
  | [] => isPrefixChars needle []
  | c :: rest => isPrefixChars needle (c :: rest) || containsChars needle rest

/-- Python substring test: needle in hay (the empty needle is in everything). -/
def strContains (hay needle : String) : Bool :=
  containsChars needle.toList hay.toList

/-- Modelled from the spec: findMany on the product collection with an optional
equality filter on category_slug (database.py get_documents is not under src/). -/
def findProducts (store : List ProductDoc) (categoryFilter : Option String) :
    List ProductDoc :=
  match categoryFilter with
  | none => store
  | some c => store.filter (fun p => p.category_slug == c)

/-- main.list_products: build the category filter only when the category argument
is truthy (Python: if category), fetch, then if q is truthy apply the
case-insensitive substring filter over title and description. -/
def list_products (store : List ProductDoc) (category : Option String)
    (q : Option String) : List ProductDoc :=
  let filter_q : Option String :=
    match category with
    | some c => if c == "" then none else some c
    | none => none
  let products := findProducts store filter_q
  match q with
  | some qs =>
    if qs == "" then products
    else
      products.filter (fun p =>
        strContains (strLower p.title) (strLower qs) ||
        strContains (strLower (p.description.getD "")) (strLower qs))
  | none => products

/-- Modelled from the spec: a well-formed storage identifier is a 24-character
hexadecimal string (bson ObjectId); hexVal gives a hex digit's value. -/
def hexVal (c : Char) : Option Nat :=
  if c.isDigit then some (c.toNat - 48)
  else if 97 ≤ c.toNat && c.toNat ≤ 102 then some (c.toNat - 87)
  else if 65 ≤ c.toNat && c.toNat ≤ 70 then some (c.toNat - 55)
  else none

/-- Modelled from the spec: ObjectId(product_id) — conversion of the path string
to a backend-native key, failing (raising) on a malformed identifier. -/
def decodeObjectId (s : String) : Option Nat :=
  if s.length == 24 && s.toList.all (fun c => (hexVal c).isSome) then
    some (s.toList.foldl (fun acc c => acc * 16 + (hexVal c).getD 0) 0)
  else none

/-- main.get_product. The whole handler body sits in a try whose
except Exception re-raises HTTPException(500, str(e)). fastapi.HTTPException
is an Exception subclass and, unlike main.checkout, this handler has no
prior except HTTPException: raise clause, so the HTTPException(404) raised on
a missing document is itself caught and surfaced as a 500, and the bson
InvalidId raised on a malformed identifier is likewise surfaced as a 500.
The detail strings here stand in for str(e); the status codes are exact. -/
def get_product (store : List ProductDoc) (product_id : String) :
    Except HTTPError ProductDoc :=
  match decodeObjectId product_id with
  | none => Except.error ⟨500, "invalid ObjectId"⟩
  | some oid =>
    match store.find? (fun p => p.id == oid) with
    | none => Except.error ⟨500, "404: Product not found"⟩
    | some doc => Except.ok doc

/-- schemas.Cart as submitted by the client: the handler ignores the
client-supplied subtotal and updated_at, but they are part of the payload. -/
structure CartPayload where
  session_id : String
  items : List CartItem
  subtotal : ℚ
  updated_at : Option Nat
deriving DecidableEq, Repr

/-- sum(item.price * item.quantity for item in cart.items). -/
def sumItems (items : List CartItem) : ℚ :=
  items.foldl (fun acc i => acc + i.price * (i.quantity : ℚ)) 0

/-- Modelled from the spec: updateOneById — $set on the first document whose
identifier matches, rewriting it with the given transformation. -/
def updateById (carts : List CartDoc) (i : Nat) (f : CartDoc → CartDoc) :
    List CartDoc :=
  match carts with
  | [] => []
  | c :: rest => if c.id == i then f c :: rest else c :: updateById rest i f

/-- main.create_or_update_cart: recompute subtotal = round(sum, 2), set
updated_at server-side, then update the existing cart document in place
($set of all payload fields, keyed by its _id) or insert a new one.
Returns the new state and the subtotal reported in the response. -/
def create_or_update_cart (s : DB) (cart : CartPayload) (now : Nat) : DB × ℚ :=
  let subtotal := round2 (sumItems cart.items)
  match s.carts.find? (fun c => c.session_id == cart.session_id) with
  | some existing =>
    let newCarts := updateById s.carts existing.id (fun c =>
      { c with session_id := cart.session_id, items := cart.items,
               subtotal := subtotal, updated_at := now })
    ({ s with carts := newCarts }, subtotal)
  | none =>
    ({ s with carts := s.carts ++ [⟨s.nextId, cart.session_id, cart.items, subtotal, now⟩],
              nextId := s.nextId + 1 }, subtotal)

/-- The value returned by main.get_cart: either the stored document (with its
string-form _id and timestamp) or the synthetic empty cart, which has neither. -/
structure CartResponse where
  id : Option Nat
  session_id : String
  items : List CartItem
  subtotal : ℚ
  updated_at : Option Nat
deriving DecidableEq, Repr

/-- The synthetic empty cart returned when no cart document exists. -/
def syntheticEmptyCart (session_id : String) : CartResponse :=
  ⟨none, session_id, [], 0, none⟩

/-- main.get_cart. -/
def get_cart (s : DB) (session_id : String) : CartResponse :=
  match s.carts.find? (fun c => c.session_id == session_id) with
  | some c => ⟨some c.id, c.session_id, c.items, c.subtotal, some c.updated_at⟩
  | none => syntheticEmptyCart session_id

/-- Modelled from the spec: deleteOneByFilter on the cart collection with a
session_id filter — removes the first matching document. -/
def deleteFirstBySession (carts : List CartDoc) (sid : String) : List CartDoc :=
  match carts with
  | [] => []
  | c :: rest => if c.session_id == sid then rest else c :: deleteFirstBySession rest sid

/-- A storage write performed by the checkout handler, in program order. -/
inductive Effect where
  | insertOrder (o : OrderDoc)
  | deleteCartBySession (sid : String)
deriving DecidableEq, Repr

/-- Apply one storage write to the state. -/
def applyEffect (s : DB) : Effect → DB
  | Effect.insertOrder o => { s with orders := s.orders ++ [o], nextId := s.nextId + 1 }
  | Effect.deleteCartBySession sid => { s with carts := deleteFirstBySession s.carts sid }

/-- Apply a sequence of storage writes left to right. -/
def applyEffects (s : DB) (effs : List Effect) : DB := effs.foldl applyEffect s

/-- main.CheckoutPayload. -/
structure CheckoutPayload where
  session_id : String
  customer : Customer
deriving DecidableEq, Repr

/-- The success body of main.checkout: order_id and total. -/
structure CheckoutResponse where
  order_id : Nat
  total : ℚ
deriving DecidableEq, Repr

/-- The field-wise copy of a stored cart item into an OrderItem performed by
main.checkout (product_id, title, price, quantity, image, in order). -/
def cartItemToOrderItem (i : CartItem) : OrderItem :=
  ⟨i.product_id, i.title, i.price, i.quantity, i.image⟩

/-- The Order document main.checkout builds: items copied from the cart,
subtotal taken from the cart's stored subtotal field, tax = round(subtotal *
0.08, 2), total = round(subtotal + tax, 2), status "processing". -/
def checkoutOrder (s : DB) (payload : CheckoutPayload) (cart : CartDoc)
    (now : Nat) : OrderDoc :=
  let items := cart.items.map cartItemToOrderItem
  let subtotal := cart.subtotal
  let tax := round2 (subtotal * (8 / 100))
  let total := round2 (subtotal + tax)
  ⟨s.nextId, payload.session_id, payload.customer, items, subtotal, tax, total,
   "processing", now⟩

/-- The sequence of storage writes main.checkout performs, in program order:
nothing when the precondition fails, else the order insert followed by the
cart delete. -/
def checkoutEffects (s : DB) (payload : CheckoutPayload) (now : Nat) : List Effect :=
  match s.carts.find? (fun c => c.session_id == payload.session_id) with
  | none => []
  | some cart =>
    if cart.items.isEmpty then []
    else [Effect.insertOrder (checkoutOrder s payload cart now),
          Effect.deleteCartBySession payload.session_id]

/-- main.checkout: load the cart, reject an absent or empty cart with
HTTPException(400, "Cart is empty") before any write, else insert the order
and then delete the cart. Returns the (possibly unchanged) state together
with the response. -/
def checkout (s : DB) (payload : CheckoutPayload) (now : Nat) :
    DB × Except HTTPError CheckoutResponse :=
  match s.carts.find? (fun c => c.session_id == payload.session_id) with
  | none => (s, Except.error ⟨400, "Cart is empty"⟩)
  | some cart =>
    if cart.items.isEmpty then (s, Except.error ⟨400, "Cart is empty"⟩)
    else
      let order := checkoutOrder s payload cart now
      let s1 := applyEffect s (Effect.insertOrder order)
      let s2 := applyEffect s1 (Effect.deleteCartBySession payload.session_id)
      (s2, Except.ok ⟨order.id, order.total⟩)

/-- Status code of an error result, if any. -/
def errStatus (r : Except HTTPError ProductDoc) : Option Nat :=
  match r with
  | Except.error e => some e.status
  | Except.ok _ => none

/-- Whether a storage write is the order insert. -/
def Effect.isInsertOrder : Effect → Bool
  | Effect.insertOrder _ => true
  | Effect.deleteCartBySession _ => false

/-- A cart document without its updated_at field: the part of the stored cart
that identical repeated writes must leave unchanged. -/
def cartSansTime (c : CartDoc) : Nat × String × List CartItem × ℚ :=
  (c.id, c.session_id, c.items, c.subtotal)

/-- Concrete fixture: the cart items of the worked example in the spec. -/
def exItems : List CartItem :=
  [⟨"p1", "Widget A", 10, 2, none⟩, ⟨"p2", "Widget B", 5, 1, none⟩]

/-- Concrete fixture: a customer. -/
def exCustomer : Customer :=
  ⟨"Ann Smith", "ann@example.com", none, "1 Main St", none, "Springfield", "IL",
   "62701", "US"⟩

/-- Concrete fixture: the state after upserting the example cart into an empty
store (the client-supplied subtotal 99 is ignored by the handler). -/
def exDB : DB := (create_or_update_cart ⟨[], [], [], 0⟩ ⟨"sess1", exItems, 99, none⟩ 3).1

/-- Concrete fixture: the checkout request for the example session. -/
def exPayload : CheckoutPayload := ⟨"sess1", exCustomer⟩

/-- Concrete fixture: the cart document stored in exDB. -/
def exCart : CartDoc := ⟨0, "sess1", exItems, 25, 3⟩

/-- Concrete fixture: an electronics product. -/
def pElec : ProductDoc :=
  ⟨0, "Wireless Headphones", some "Noise-cancelling over-ear headphones",
   12999 / 100, none, "electronics", some "SoundMax", none, [], 46 / 10, 25⟩

/-- Concrete fixture: a kitchen product. -/
def pHome : ProductDoc :=
  ⟨1, "Stainless Cookware Set", some "10-piece pots and pans set",
   89, none, "home-kitchen", some "ChefPro", none, [], 44 / 10, 40⟩

/-- Concrete fixture: a checkout request for a session with no cart. -/
def exPayloadGhost : CheckoutPayload := ⟨"nobody", exCustomer⟩

/-- Concrete fixture: exDB extended with a second, empty cart for sess2. -/
def exDBEmptyCart : DB := (create_or_update_cart exDB ⟨"sess2", [], 0, none⟩ 4).1

/-- Concrete fixture: the checkout request for the empty sess2 cart. -/
def exPayloadEmpty : CheckoutPayload := ⟨"sess2", exCustomer⟩

/-- Concrete fixture: the example cart payload as submitted by the client. -/
def exUpsertPayload : CartPayload := ⟨"sess1", exItems, 99, none⟩

/-- Concrete fixture: a later, smaller cart payload for the same session. -/
def exShrinkPayload : CartPayload := ⟨"sess1", [⟨"p3", "Widget C", 7 / 2, 3, some "img"⟩], 0, some 1⟩

end DeptStore

deriving instance DecidableEq for Except

namespace DeptStore

/-- Helper: a non-nil item list is not isEmpty. -/
theorem isEmpty_false_of_ne_nil {l : List CartItem} (h : l ≠ []) : l.isEmpty = false := by
  cases l with
  | nil => exact absurd rfl h
  | cons a t => rfl

/-- Helper: when no document matches, a find? after appending one matching
document returns that document. -/
theorem find?_append_singleton_of_none {p : CartDoc → Bool} (l : List CartDoc)
    (x : CartDoc) (h : l.find? p = none) (hx : p x = true) :
    (l ++ [x]).find? p = some x := by
  rw [List.find?_append, h]
  simp [List.find?_cons, hx]

/-- Helper: after the in-place $set keyed by the found cart's _id, the first
document matching the session filter is the rewritten document. -/
theorem find?_updateById_session (l : List CartDoc) (c0 : CartDoc) (sid : String)
    (its : List CartItem) (st : ℚ) (t : Nat)
    (h : l.find? (fun c => c.session_id == sid) = some c0) :
    (updateById l c0.id (fun c =>
        { c with session_id := sid, items := its, subtotal := st, updated_at := t })).find?
      (fun c => c.session_id == sid) = some ⟨c0.id, sid, its, st, t⟩ := by
  induction l with
  | nil => simp at h
  | cons a rest ih =>
    cases hsess : (a.session_id == sid) with
    | true =>
      simp only [List.find?_cons, hsess] at h
      have ha : a = c0 := by simpa using h
      subst ha
      simp [updateById, List.find?_cons]
    | false =>
      simp only [List.find?_cons, hsess] at h
      cases hid : (a.id == c0.id) with
      | true =>
        have haid : a.id = c0.id := by simpa using hid
        simp [updateById, hid, List.find?_cons, haid]
      | false =>
        simp only [updateById, hid, Bool.false_eq_true, if_false]
        simp only [List.find?_cons, hsess]
        exact ih h

/-- C4: for every upsertCart call with any payload (items of any length, any
client-supplied subtotal or updated_at, which are ignored), the subtotal
returned in the response and the subtotal stored in the cart document (as read
back by getCart) both equal round(sum of price * quantity, 2). -/
theorem upsert_cart_subtotal_invariant (s : DB) (cart : CartPayload) (t : Nat) :
    (create_or_update_cart s cart t).2 = round2 (sumItems cart.items) ∧
    (get_cart (create_or_update_cart s cart t).1 cart.session_id).subtotal =
      round2 (sumItems cart.items) := by
  cases hfind : s.carts.find? (fun c => c.session_id == cart.session_id) with
  | none =>
    refine ⟨by simp [create_or_update_cart, hfind], ?_⟩
    simp only [create_or_update_cart, hfind, get_cart]
    rw [find?_append_singleton_of_none _ _ hfind (by simp)]
  | some existing =>
    refine ⟨by simp [create_or_update_cart, hfind], ?_⟩
    simp only [create_or_update_cart, hfind, get_cart]
    rw [find?_updateById_session s.carts existing cart.session_id _ _ _ hfind]

/-- C2: checkout on a session with no stored cart, or whose stored cart has an
empty items list, returns the 400 "Cart is empty" client error and leaves the
state completely unchanged: no order is inserted and the cart collection is
untouched. -/
theorem checkout_empty_cart_no_writes (s : DB) (p : CheckoutPayload) (t : Nat)
    (h : ∀ c, s.carts.find? (fun d => d.session_id == p.session_id) = some c →
      c.items = []) :
    checkout s p t = (s, Except.error ⟨400, "Cart is empty"⟩) := by
  cases hfind : s.carts.find? (fun d => d.session_id == p.session_id) with
  | none => simp [checkout, hfind]
  | some c =>
    have hc : c.items = [] := h c hfind
    simp [checkout, hfind, hc]

end DeptStore

namespace DeptStore

/-- Helper: the subtotal returned by create_or_update_cart is always the rounded
sum of the submitted line items, in both the update and the insert branch. -/
theorem upsert_response_subtotal (s : DB) (cart : CartPayload) (t : Nat) :
    (create_or_update_cart s cart t).2 = round2 (sumItems cart.items) := by
  cases hfind : s.carts.find? (fun c => c.session_id == cart.session_id) with
  | none => simp [create_or_update_cart, hfind]
  | some existing => simp [create_or_update_cart, hfind]

/-- Helper: an id-preserving updateById leaves the collection's id sequence
unchanged. -/
theorem map_id_updateById (l : List CartDoc) (i : Nat) (g : CartDoc → CartDoc)
    (hg : ∀ c, (g c).id = c.id) :
    (updateById l i g).map CartDoc.id = l.map CartDoc.id := by
  induction l with
  | nil => rfl
  | cons a rest ih =>
    cases hid : (a.id == i) with
    | true => simp [updateById, hid, hg]
    | false => simp [updateById, hid, ih]

/-- Helper: documents with a different id survive updateById unchanged. -/
theorem mem_updateById_of_ne (l : List CartDoc) (i : Nat) (g : CartDoc → CartDoc)
    (d : CartDoc) (hd : d ∈ l) (hne : d.id ≠ i) : d ∈ updateById l i g := by
  induction l with
  | nil => simp at hd
  | cons a rest ih =>
    rcases List.mem_cons.mp hd with rfl | hmem
    · cases hid : (d.id == i) with
      | true => exact absurd (by simpa using hid) hne
      | false => simp [updateById, hid]
    · cases hid : (a.id == i) with
      | true => simp [updateById, hid, hmem]
      | false => simp [updateById, hid]; right; exact ih hmem

/-- C7: when a cart already exists for the session, upsertCart replaces items,
subtotal and updated_at in place in that same document: the collection's id
sequence is unchanged, getCart afterwards returns exactly the newly submitted
items (so a smaller write shrinks the cart), documents with other ids are
untouched, and no other collection changes. -/
theorem upsert_cart_replaces_in_place (s : DB) (cart : CartPayload) (t : Nat)
    (c0 : CartDoc)
    (hfind : s.carts.find? (fun d => d.session_id == cart.session_id) = some c0) :
    (create_or_update_cart s cart t).1.carts.map CartDoc.id = s.carts.map CartDoc.id ∧
    get_cart (create_or_update_cart s cart t).1 cart.session_id =
      ⟨some c0.id, cart.session_id, cart.items, round2 (sumItems cart.items), some t⟩ ∧
    (∀ d ∈ s.carts, d.id ≠ c0.id → d ∈ (create_or_update_cart s cart t).1.carts) ∧
    (create_or_update_cart s cart t).1.orders = s.orders ∧
    (create_or_update_cart s cart t).1.products = s.products := by
  refine ⟨?_, ?_, ?_, ?_, ?_⟩
  · simp only [create_or_update_cart, hfind]
    exact map_id_updateById _ _ _ (fun c => rfl)
  · simp only [create_or_update_cart, hfind, get_cart]
    rw [find?_updateById_session s.carts c0 cart.session_id _ _ _ hfind]
  · intro d hd hne
    simp only [create_or_update_cart, hfind]
    exact mem_updateById_of_ne _ _ _ d hd hne
  · simp [create_or_update_cart, hfind]
  · simp [create_or_update_cart, hfind]

/-- Helper: rewriting the just-appended document (whose id is fresh for the
rest of the collection) changes nothing but its updated_at, up to
cartSansTime. -/
theorem updateById_append_new (l : List CartDoc) (i : Nat) (sid : String)
    (its : List CartItem) (st : ℚ) (t1 t2 : Nat)
    (h : ∀ c ∈ l, c.id ≠ i) :
    (updateById (l ++ [(⟨i, sid, its, st, t1⟩ : CartDoc)]) i (fun c =>
        { c with session_id := sid, items := its, subtotal := st, updated_at := t2 })).map
      cartSansTime =
    (l ++ [(⟨i, sid, its, st, t1⟩ : CartDoc)]).map cartSansTime := by
  induction l with
  | nil => simp [updateById, cartSansTime]
  | cons a rest ih =>
    have ha : (a.id == i) = false := by
      have := h a (List.mem_cons_self a rest)
      simpa using this
    simp only [List.cons_append, updateById, ha, Bool.false_eq_true, if_false,
      List.map_cons, List.cons.injEq, true_and]
    exact ih (fun c hc => h c (List.mem_cons_of_mem a hc))

/-- Helper: repeating the same in-place $set with a different timestamp leaves
the collection unchanged up to cartSansTime. -/
theorem map_sansTime_reupdate (l : List CartDoc) (i : Nat) (sid : String)
    (its : List CartItem) (st : ℚ) (t1 t2 : Nat) :
    (updateById (updateById l i (fun c =>
        { c with session_id := sid, items := its, subtotal := st, updated_at := t1 }))
       i (fun c =>
        { c with session_id := sid, items := its, subtotal := st, updated_at := t2 })).map
      cartSansTime =
    (updateById l i (fun c =>
        { c with session_id := sid, items := its, subtotal := st, updated_at := t1 })).map
      cartSansTime := by
  induction l with
  | nil => rfl
  | cons a rest ih =>
    cases hid : (a.id == i) with
    | true => simp [updateById, hid, cartSansTime]
    | false =>
      simp only [updateById, hid, Bool.false_eq_true, if_false, List.map_cons,
        List.cons.injEq, true_and]
      exact ih

/-- C8: upsertCart is idempotent under repeated identical input: a second call
with the same payload returns the same subtotal and leaves the same stored
documents (same id, session_id, items and subtotal; only updated_at may
differ). -/
theorem upsert_cart_idempotent (s : DB) (cart : CartPayload) (t1 t2 : Nat)
    (hfresh : ∀ c ∈ s.carts, c.id < s.nextId) :
    (create_or_update_cart (create_or_update_cart s cart t1).1 cart t2).2 =
      (create_or_update_cart s cart t1).2 ∧
    (create_or_update_cart (create_or_update_cart s cart t1).1 cart t2).1.carts.map
        cartSansTime =
      (create_or_update_cart s cart t1).1.carts.map cartSansTime := by
  refine ⟨by rw [upsert_response_subtotal, upsert_response_subtotal], ?_⟩
  cases hfind : s.carts.find? (fun c => c.session_id == cart.session_id) with
  | none =>
    have hfind2 : ((create_or_update_cart s cart t1).1.carts.find?
        (fun c => c.session_id == cart.session_id)) =
        some ⟨s.nextId, cart.session_id, cart.items, round2 (sumItems cart.items), t1⟩ := by
      simp only [create_or_update_cart, hfind]
      exact find?_append_singleton_of_none _ _ hfind (by simp)
    simp only [create_or_update_cart, hfind] at hfind2 ⊢
    simp only [hfind2]
    exact updateById_append_new s.carts s.nextId cart.session_id cart.items
      (round2 (sumItems cart.items)) t1 t2 (fun c hc => Nat.ne_of_lt (hfresh c hc))
  | some c0 =>
    have hfind2 := find?_updateById_session s.carts c0 cart.session_id cart.items
      (round2 (sumItems cart.items)) t1 hfind
    simp only [create_or_update_cart, hfind] at hfind2 ⊢
    simp only [hfind2]
    exact map_sansTime_reupdate s.carts c0.id cart.session_id cart.items
      (round2 (sumItems cart.items)) t1 t2

end DeptStore

namespace DeptStore

/-- Helper: when at most one cart matches the session, deleting the first match
leaves no match. -/
theorem find?_deleteFirstBySession (l : List CartDoc) (sid : String)
    (h : l.countP (fun c => c.session_id == sid) ≤ 1) :
    (deleteFirstBySession l sid).find? (fun c => c.session_id == sid) = none := by
  induction l with
  | nil => rfl
  | cons a rest ih =>
    rw [List.countP_cons] at h
    cases hs : (a.session_id == sid) with
    | true =>
      simp only [deleteFirstBySession, hs, if_true]
      have h0 : rest.countP (fun c => c.session_id == sid) = 0 := by
        simp only [hs, if_true] at h; omega
      exact List.find?_eq_none.mpr (fun x hx hpx =>
        (List.countP_eq_zero.mp h0 x hx) hpx)
    | false =>
      simp only [deleteFirstBySession, hs, Bool.false_eq_true, if_false]
      rw [List.find?_cons_of_neg _ (by simp [hs])]
      exact ih (by simp only [hs, Bool.false_eq_true, if_false, Nat.add_zero] at h; exact h)

/-- C1: checkout on a session whose stored cart exists and is non-empty
persists exactly one new order whose subtotal is the cart's stored subtotal,
whose tax is round(subtotal * 0.08, 2) and whose total is
round(subtotal + tax, 2), and a subsequent getCart for the session returns the
synthetic empty cart. -/
theorem checkout_nonempty_cart_correct (s : DB) (p : CheckoutPayload) (t : Nat)
    (c : CartDoc)
    (hfind : s.carts.find? (fun d => d.session_id == p.session_id) = some c)
    (hne : c.items ≠ [])
    (huniq : s.carts.countP (fun d => d.session_id == p.session_id) ≤ 1) :
    (checkout s p t).1.orders.length = s.orders.length + 1 ∧
    ((checkout s p t).1.orders.getLast?).map OrderDoc.subtotal = some c.subtotal ∧
    ((checkout s p t).1.orders.getLast?).map OrderDoc.tax =
      some (round2 (c.subtotal * (8 / 100))) ∧
    ((checkout s p t).1.orders.getLast?).map OrderDoc.total =
      some (round2 (c.subtotal + round2 (c.subtotal * (8 / 100)))) ∧
    get_cart (checkout s p t).1 p.session_id = syntheticEmptyCart p.session_id := by
  have hie := isEmpty_false_of_ne_nil hne
  simp only [checkout, hfind, hie, Bool.false_eq_true, if_false, applyEffect,
    checkoutOrder]
  refine ⟨by simp, by simp [List.getLast?_concat], by simp [List.getLast?_concat],
    by simp [List.getLast?_concat], ?_⟩
  simp only [get_cart]
  rw [find?_deleteFirstBySession s.carts p.session_id huniq]

/-- C5: every successful checkout performs exactly two storage writes, in
program order the order insert first and the cart delete second; the final
state is obtained by applying them in that order, aborting after only the
first write leaves the cart collection intact with the order already
persisted, and aborting before the first write leaves the state unchanged. -/
theorem checkout_order_insert_before_cart_delete (s : DB) (p : CheckoutPayload)
    (t : Nat) (c : CartDoc)
    (hfind : s.carts.find? (fun d => d.session_id == p.session_id) = some c)
    (hne : c.items ≠ []) :
    (checkout s p t).1 = applyEffects s (checkoutEffects s p t) ∧
    (checkoutEffects s p t).length = 2 ∧
    ((checkoutEffects s p t).head?).map Effect.isInsertOrder = some true ∧
    (checkoutEffects s p t).getLast? = some (Effect.deleteCartBySession p.session_id) ∧
    (applyEffects s ((checkoutEffects s p t).take 1)).orders.length =
      s.orders.length + 1 ∧
    (applyEffects s ((checkoutEffects s p t).take 1)).carts = s.carts ∧
    applyEffects s ((checkoutEffects s p t).take 0) = s := by
  have hie := isEmpty_false_of_ne_nil hne
  simp [checkout, checkoutEffects, hfind, hie, applyEffects, applyEffect,
    Effect.isInsertOrder]

/-- C6: each order item of a successful checkout is the field-wise copy
(product_id, title, price, quantity, image) of the corresponding stored cart
item — the order's item list is exactly the cart's item list — and checkout
never consults the product collection: its response, carts and orders are the
same for any contents of that collection, including a changed or deleted
product. -/
theorem checkout_items_pure_copy (s : DB) (p : CheckoutPayload) (t : Nat)
    (c : CartDoc)
    (hfind : s.carts.find? (fun d => d.session_id == p.session_id) = some c)
    (hne : c.items ≠ []) :
    ((checkout s p t).1.orders.getLast?).map OrderDoc.items =
      some (c.items.map cartItemToOrderItem) ∧
    (∀ i : CartItem, (cartItemToOrderItem i).product_id = i.product_id ∧
      (cartItemToOrderItem i).title = i.title ∧
      (cartItemToOrderItem i).price = i.price ∧
      (cartItemToOrderItem i).quantity = i.quantity ∧
      (cartItemToOrderItem i).image = i.image) ∧
    (∀ ps : List ProductDoc,
      (checkout { s with products := ps } p t).2 = (checkout s p t).2 ∧
      (checkout { s with products := ps } p t).1.carts = (checkout s p t).1.carts ∧
      (checkout { s with products := ps } p t).1.orders = (checkout s p t).1.orders) := by
  have hie := isEmpty_false_of_ne_nil hne
  refine ⟨?_, fun i => ⟨rfl, rfl, rfl, rfl, rfl⟩, fun ps => ?_⟩
  · simp only [checkout, hfind, hie, Bool.false_eq_true, if_false, applyEffect,
      checkoutOrder]
    simp [List.getLast?_concat]
  · have hfind2 : ({ s with products := ps } : DB).carts.find?
        (fun d => d.session_id == p.session_id) = some c := hfind
    simp [checkout, hfind, hfind2, hie, applyEffect, checkoutOrder]

/-- C10: the response of every successful checkout is consistent with the
persisted state: the returned order_id is the identifier of the order document
that was appended, and the returned total equals that document's total
field. -/
theorem checkout_response_matches_persisted_order (s : DB) (p : CheckoutPayload)
    (t : Nat) (r : CheckoutResponse)
    (hok : (checkout s p t).2 = Except.ok r) :
    ((checkout s p t).1.orders.getLast?).map OrderDoc.id = some r.order_id ∧
    ((checkout s p t).1.orders.getLast?).map OrderDoc.total = some r.total ∧
    (checkout s p t).1.orders.length = s.orders.length + 1 := by
  cases hfind : s.carts.find? (fun d => d.session_id == p.session_id) with
  | none => simp [checkout, hfind] at hok
  | some c =>
    cases hie : c.items.isEmpty with
    | true => simp [checkout, hfind, hie] at hok
    | false =>
      simp only [checkout, hfind, hie, Bool.false_eq_true, if_false, applyEffect,
        checkoutOrder] at hok ⊢
      have hr : r = ⟨s.nextId,
          round2 (c.subtotal + round2 (c.subtotal * (8 / 100)))⟩ := by
        simpa using hok.symm
      subst hr
      refine ⟨by simp [List.getLast?_concat], by simp [List.getLast?_concat], by simp⟩

end DeptStore

namespace DeptStore

/-- C3: contrary to the claim, get_product surfaces both failure modes as 500
server faults: with a well-formed (24-hex) but unassigned identifier the
HTTPException(404) raised inside the try block is caught by the handler's own
broad except clause and re-raised as a 500, and with a malformed identifier
the ObjectId conversion error is likewise surfaced as a 500 instead of an
InvalidReference client error. -/
theorem get_product_failures_surface_as_500 :
    decodeObjectId "ffffffffffffffffffffffff" ≠ none ∧
    errStatus (get_product [pElec] "ffffffffffffffffffffffff") = some 500 ∧
    decodeObjectId "not-a-valid-identifier" = none ∧
    errStatus (get_product [pElec] "not-a-valid-identifier") = some 500 := by decide

/-- C9 (amended): for every nonempty category argument, listProducts returns
exactly the stored products whose category_slug equals that argument, and a
nonempty query argument further restricts the result to products whose title
or description contains the query as a case-insensitive substring; an empty
result is the empty list, not an error. (The code treats the empty string as
an absent argument.) -/
theorem list_products_category_query_filter (store : List ProductDoc) (c q : String)
    (hc : c ≠ "") :
    (∀ p : ProductDoc, p ∈ list_products store (some c) none ↔
      p ∈ store ∧ p.category_slug = c) ∧
    (q ≠ "" → ∀ p : ProductDoc, p ∈ list_products store (some c) (some q) ↔
      p ∈ store ∧ p.category_slug = c ∧
      (strContains (strLower p.title) (strLower q) = true ∨
       strContains (strLower (p.description.getD "")) (strLower q) = true)) := by
  have hcb : (c == "") = false := by simpa using hc
  constructor
  · intro p
    simp [list_products, findProducts, hcb, List.mem_filter]
  · intro hq p
    have hqb : (q == "") = false := by simpa using hq
    simp only [list_products, findProducts, hcb, hqb, Bool.false_eq_true, if_false,
      List.mem_filter, Bool.or_eq_true, beq_iff_eq, and_assoc]

end DeptStore

namespace DeptStore

section

attribute [local semireducible] Rat.add Rat.mul Rat.inv Rat.sub

/-- C9 counterexample: with the empty string as the category argument the code
skips the category filter (Python falsiness), so listProducts returns a
product whose category_slug is not equal to the argument. -/
theorem list_products_empty_category_counterexample :
    pHome ∈ list_products [pElec, pHome] (some "") none ∧
    pHome.category_slug ≠ "" := by decide

/-- Witness for C1 at the spec's example: items 10.00 x 2 and 5.00 x 1 give
subtotal 25.00, tax 2.00, total 27.00, and the cart is cleared. -/
theorem checkout_nonempty_cart_correct_witness :
    (checkout exDB exPayload 7).1.orders.length = exDB.orders.length + 1 ∧
    ((checkout exDB exPayload 7).1.orders.getLast?).map OrderDoc.subtotal = some 25 ∧
    ((checkout exDB exPayload 7).1.orders.getLast?).map OrderDoc.tax = some 2 ∧
    ((checkout exDB exPayload 7).1.orders.getLast?).map OrderDoc.total = some 27 ∧
    get_cart (checkout exDB exPayload 7).1 exPayload.session_id =
      syntheticEmptyCart exPayload.session_id := by
  have h := checkout_nonempty_cart_correct exDB exPayload 7 exCart (by decide)
    (by decide) (by decide)
  refine ⟨h.1, ?_, ?_, ?_, h.2.2.2.2⟩
  · rw [h.2.1]; decide
  · rw [h.2.2.1]; decide
  · rw [h.2.2.2.1]; decide

/-- Witness for C2: an absent cart and an empty stored cart both fail with the
400 error and leave the state unchanged. -/
theorem checkout_empty_cart_no_writes_witness :
    checkout exDB exPayloadGhost 7 = (exDB, Except.error ⟨400, "Cart is empty"⟩) ∧
    checkout exDBEmptyCart exPayloadEmpty 8 =
      (exDBEmptyCart, Except.error ⟨400, "Cart is empty"⟩) := by
  constructor
  · apply checkout_empty_cart_no_writes
    intro c hc
    have he : exDB.carts.find?
        (fun d => d.session_id == exPayloadGhost.session_id) = none := by decide
    rw [he] at hc
    exact absurd hc (by simp)
  · apply checkout_empty_cart_no_writes
    intro c hc
    have he : exDBEmptyCart.carts.find?
        (fun d => d.session_id == exPayloadEmpty.session_id) =
        some (⟨1, "sess2", [], 0, 4⟩ : CartDoc) := by decide
    rw [he] at hc
    injection hc with h2
    rw [← h2]

/-- Witness for C5 at the example state. -/
theorem checkout_order_insert_before_cart_delete_witness :
    (checkout exDB exPayload 7).1 = applyEffects exDB (checkoutEffects exDB exPayload 7) ∧
    (checkoutEffects exDB exPayload 7).length = 2 ∧
    ((checkoutEffects exDB exPayload 7).head?).map Effect.isInsertOrder = some true ∧
    (checkoutEffects exDB exPayload 7).getLast? =
      some (Effect.deleteCartBySession exPayload.session_id) ∧
    (applyEffects exDB ((checkoutEffects exDB exPayload 7).take 1)).orders.length =
      exDB.orders.length + 1 ∧
    (applyEffects exDB ((checkoutEffects exDB exPayload 7).take 1)).carts = exDB.carts ∧
    applyEffects exDB ((checkoutEffects exDB exPayload 7).take 0) = exDB :=
  checkout_order_insert_before_cart_delete exDB exPayload 7 exCart (by decide) (by decide)

/-- Witness for C6 at the example state. -/
theorem checkout_items_pure_copy_witness :
    ((checkout exDB exPayload 7).1.orders.getLast?).map OrderDoc.items =
      some (exCart.items.map cartItemToOrderItem) ∧
    (checkout { exDB with products := [pElec] } exPayload 7).2 =
      (checkout exDB exPayload 7).2 ∧
    (checkout { exDB with products := [pElec] } exPayload 7).1.orders =
      (checkout exDB exPayload 7).1.orders := by
  have h := checkout_items_pure_copy exDB exPayload 7 exCart (by decide) (by decide)
  exact ⟨h.1, (h.2.2 [pElec]).1, (h.2.2 [pElec]).2.2⟩

/-- Witness for C7: rewriting the example session's cart with a single-item
payload shrinks it in place. -/
theorem upsert_cart_replaces_in_place_witness :
    (create_or_update_cart exDB exShrinkPayload 9).1.carts.map CartDoc.id =
      exDB.carts.map CartDoc.id ∧
    get_cart (create_or_update_cart exDB exShrinkPayload 9).1
        exShrinkPayload.session_id =
      ⟨some exCart.id, exShrinkPayload.session_id, exShrinkPayload.items,
       round2 (sumItems exShrinkPayload.items), some 9⟩ ∧
    (create_or_update_cart exDB exShrinkPayload 9).1.orders = exDB.orders := by
  have h := upsert_cart_replaces_in_place exDB exShrinkPayload 9 exCart (by decide)
  exact ⟨h.1, h.2.1, h.2.2.2.1⟩

/-- Witness for C8 at the example state. -/
theorem upsert_cart_idempotent_witness :
    (create_or_update_cart (create_or_update_cart exDB exUpsertPayload 5).1
        exUpsertPayload 6).2 =
      (create_or_update_cart exDB exUpsertPayload 5).2 ∧
    (create_or_update_cart (create_or_update_cart exDB exUpsertPayload 5).1
        exUpsertPayload 6).1.carts.map cartSansTime =
      (create_or_update_cart exDB exUpsertPayload 5).1.carts.map cartSansTime :=
  upsert_cart_idempotent exDB exUpsertPayload 5 6 (by decide)

/-- Witness for the amended C9 at a concrete two-product store. -/
theorem list_products_category_query_filter_witness :
    (pElec ∈ list_products [pElec, pHome] (some "electronics") none ↔
      pElec ∈ [pElec, pHome] ∧ pElec.category_slug = "electronics") ∧
    (pHome ∈ list_products [pElec, pHome] (some "electronics") (some "wireless") ↔
      pHome ∈ [pElec, pHome] ∧ pHome.category_slug = "electronics" ∧
      (strContains (strLower pHome.title) (strLower "wireless") = true ∨
       strContains (strLower (pHome.description.getD "")) (strLower "wireless") = true)) := by
  have h := list_products_category_query_filter [pElec, pHome] "electronics"
    "wireless" (by decide)
  exact ⟨h.1 pElec, h.2 (by decide) pHome⟩

/-- Witness for C10 at the example state. -/
theorem checkout_response_matches_persisted_order_witness :
    ((checkout exDB exPayload 7).1.orders.getLast?).map OrderDoc.id = some 1 ∧
    ((checkout exDB exPayload 7).1.orders.getLast?).map OrderDoc.total = some 27 ∧
    (checkout exDB exPayload 7).1.orders.length = exDB.orders.length + 1 :=
  checkout_response_matches_persisted_order exDB exPayload 7 ⟨1, 27⟩ (by decide)

end

end DeptStore
